import Mathlib

/-!
# Women-Safety-Ai — verification of the scoring / trend / leaderboard core

Shallow embedding of the logic in `frontend/src/data/mockData.ts` and of the
SOS message composer in `frontend/src/pages/SOSEmergency.tsx`, together with a
spec-modelled stand-in for the absent backend endpoint `POST /predict/simulate`
(`backend/app.py` is not among the repository sources).

JavaScript `number` arithmetic is modelled over `ℚ` (the constants appearing in
the source — 0.25, 0.2, 0.15, 0.5 — and all intermediate values reachable from
integer inputs are exactly representable, so the rational model is faithful on
the domains considered); `Math.round` is "round half toward +∞", and JavaScript
`%` on integers is truncated remainder (`Int.tmod`).  `Math.sin`, the one
transcendental used (only to synthesise mock trend counts), is abstracted as an
explicit function parameter.
-/

namespace WomenSafety

/-- The three risk buckets of the platform (`"Low" | "Medium" | "High"`). -/
inductive RiskLevel where
  | low
  | medium
  | high
deriving DecidableEq, Repr

/-- JavaScript `Math.round`: round half toward positive infinity,
`Math.round x = ⌊x + 1/2⌋`. -/
def jsRound (q : ℚ) : ℤ :=
  Int.floor (q + 1 / 2)

/-- The risk bucketing as the spec words it: High if score < 40, Medium if
40 ≤ score < 70, Low if score ≥ 70 (boundaries closed on the lower side). -/
def riskOf (score : ℤ) : RiskLevel :=
  if score < 40 then .high
  else if score < 70 then .medium
  else .low

/-- `INDIAN_STATES` from `mockData.ts` (lines 4–34), verbatim. -/
def INDIAN_STATES : List String :=
  [ "Andhra Pradesh"
  , "Arunachal Pradesh"
  , "Assam"
  , "Bihar"
  , "Chhattisgarh"
  , "Goa"
  , "Gujarat"
  , "Haryana"
  , "Himachal Pradesh"
  , "Jharkhand"
  , "Karnataka"
  , "Kerala"
  , "Madhya Pradesh"
  , "Maharashtra"
  , "Manipur"
  , "Meghalaya"
  , "Mizoram"
  , "Nagaland"
  , "Odisha"
  , "Punjab"
  , "Rajasthan"
  , "Sikkim"
  , "Tamil Nadu"
  , "Telangana"
  , "Tripura"
  , "Uttar Pradesh"
  , "Uttarakhand"
  , "West Bengal"
  , "Delhi" ]

/-- `AVAILABLE_STATES` from `frontend/src/services/api.ts`, verbatim. -/
def AVAILABLE_STATES : List String :=
  [ "Andhra Pradesh"
  , "Arunachal Pradesh"
  , "Assam"
  , "Bihar"
  , "Chhattisgarh"
  , "Delhi"
  , "Goa"
  , "Gujarat"
  , "Haryana"
  , "Himachal Pradesh"
  , "Jammu & Kashmir"
  , "Jharkhand"
  , "Karnataka"
  , "Kerala"
  , "Madhya Pradesh"
  , "Maharashtra"
  , "Manipur"
  , "Meghalaya"
  , "Mizoram"
  , "Nagaland"
  , "Odisha"
  , "Punjab"
  , "Rajasthan"
  , "Sikkim"
  , "Tamil Nadu"
  , "Telangana"
  , "Tripura"
  , "Uttar Pradesh"
  , "Uttarakhand"
  , "West Bengal" ]

/-- `YEARS = Array.from({length: 21}, (_, i) => 2001 + i)` from `mockData.ts`. -/
def YEARS : List ℤ :=
  (List.range 21).map (fun i => 2001 + (i : ℤ))

/-- Result record of `calculateSafetyScore`. -/
structure ScoreResult where
  score : ℤ
  riskLevel : RiskLevel
deriving DecidableEq, Repr

/-- `calculateSafetyScore(state, year)` from `mockData.ts` (lines 50–63):
`seed = state.length * year`, `baseScore = 40 + (seed % 50)`,
`yearFactor = (year - 2001) * 0.5`,
`score = Math.min(100, Math.max(0, Math.round(baseScore + yearFactor)))`,
`riskLevel = score >= 70 ? "Low" : score >= 40 ? "Medium" : "High"`. -/
def calculateSafetyScore (state : String) (year : ℤ) : ScoreResult :=
  let seed : ℤ := (state.length : ℤ) * year
  let baseScore : ℤ := 40 + Int.tmod seed 50
  let yearFactor : ℚ := ((year : ℚ) - 2001) * 0.5
  let score : ℤ := min 100 (max 0 (jsRound ((baseScore : ℚ) + yearFactor)))
  let riskLevel : RiskLevel :=
    if 70 ≤ score then .low else if 40 ≤ score then .medium else .high
  { score := score, riskLevel := riskLevel }

/-- Integer evaluation of the score of `calculateSafetyScore` (used, with a
proof of agreement below, to let the kernel compute scores: rational
arithmetic does not reduce definitionally). -/
def calcScoreInt (state : String) (year : ℤ) : ℤ :=
  min 100 (max 0
    ((2 * (40 + Int.tmod ((state.length : ℤ) * year) 50) + (year - 2001) + 1) / 2))

/-- The argument of `simulateSafetyScore`: a `Record<CrimeType, number>` over
the five fixed `CRIME_TYPES` of `mockData.ts`. -/
structure CrimeValues where
  rape : ℚ
  assaultOnWomen : ℚ
  kidnappingAbduction : ℚ
  domesticViolence : ℚ
  womenTrafficking : ℚ
deriving DecidableEq, Repr

/-- The fixed `weights` record of `simulateSafetyScore` (lines 71–77). -/
def weightedSum (v : CrimeValues) : ℚ :=
  v.rape * 0.25 + v.assaultOnWomen * 0.2 + v.kidnappingAbduction * 0.2 +
    v.domesticViolence * 0.2 + v.womenTrafficking * 0.15

/-- The `interpretations` record of `simulateSafetyScore` (lines 87–91). -/
def interpretations : RiskLevel → String
  | .low => "The projected safety level is favorable. Standard precautions are sufficient."
  | .medium => "Moderate risk detected. Enhanced awareness and safety protocols recommended."
  | .high => "Elevated risk scenario. Immediate safety measures and emergency contacts should be readily available."

/-- Result record of `simulateSafetyScore`. -/
structure SimResult where
  score : ℤ
  riskLevel : RiskLevel
  interpretation : String
deriving DecidableEq, Repr

/-- `simulateSafetyScore(crimeValues)` from `mockData.ts` (lines 66–94):
`score = Math.round(100 - weightedSum)` (note: no clamping),
`riskLevel = score >= 70 ? "Low" : score >= 40 ? "Medium" : "High"`. -/
def simulateSafetyScore (v : CrimeValues) : SimResult :=
  let score : ℤ := jsRound (100 - weightedSum v)
  let riskLevel : RiskLevel :=
    if 70 ≤ score then .low else if 40 ≤ score then .medium else .high
  { score := score, riskLevel := riskLevel,
    interpretation := interpretations riskLevel }

/-- Result record of `getSafetyRecommendations`. -/
structure Recommendation where
  riskLevel : RiskLevel
  tips : List String
deriving DecidableEq, Repr

/-- `getSafetyRecommendations(score)` from `mockData.ts` (lines 165–209),
with the tip texts verbatim. -/
def getSafetyRecommendations (score : ℤ) : Recommendation :=
  if 70 ≤ score then
    { riskLevel := .low
    , tips :=
      [ "Maintain regular communication with family about your whereabouts"
      , "Keep emergency contacts saved on speed dial"
      , "Stay aware of your surroundings, especially in unfamiliar areas"
      , "Share your live location with trusted contacts during travel"
      , "Trust your instincts — if something feels wrong, leave the situation" ] }
  else if 40 ≤ score then
    { riskLevel := .medium
    , tips :=
      [ "Avoid isolated areas, especially after dark"
      , "Travel in groups when possible"
      , "Keep your phone fully charged when going out"
      , "Inform family/friends about your travel plans in advance"
      , "Familiarize yourself with nearby police stations and safe zones"
      , "Consider carrying personal safety devices (whistle, pepper spray where legal)"
      , "Use verified transportation services and share trip details" ] }
  else
    { riskLevel := .high
    , tips :=
      [ "Limit travel to essential journeys only"
      , "Always travel with trusted companions"
      , "Keep emergency services numbers readily accessible"
      , "Share real-time location with multiple trusted contacts"
      , "Avoid public confrontations — prioritize de-escalation"
      , "Know the locations of hospitals, police stations, and women\x27s shelters"
      , "Consider using SOS apps that alert multiple contacts simultaneously"
      , "Have a safety plan discussed with family for emergency situations"
      , "Stay connected — check in regularly with family/friends" ] }

/-- Entry record of `getLeaderboardData`. -/
structure LeaderboardEntry where
  rank : ℕ
  state : String
  score : ℤ
  riskLevel : RiskLevel
deriving DecidableEq, Repr

/-- Stable insertion of `x` into a list already sorted by `score`: `x` goes in
front of the first element whose score is not smaller. -/
def insertByScore (x : String × ScoreResult) :
    List (String × ScoreResult) → List (String × ScoreResult)
  | [] => [x]
  | y :: ys =>
      if y.2.score < x.2.score then y :: insertByScore x ys else x :: y :: ys

/-- JavaScript `Array.prototype.sort` with comparator
`(a, b) => a.score - b.score` is a stable sort by numeric `score`
(ECMAScript 2019 requires sort stability); a stable insertion sort computes
the identical permutation. -/
def sortByScore (l : List (String × ScoreResult)) :
    List (String × ScoreResult) :=
  l.foldr insertByScore []

/-- `getLeaderboardData()` from `mockData.ts` (lines 140–162): score every
state of `INDIAN_STATES` at `latestYear = 2021`, sort ascending by score,
`slice(0, 10)`, and attach ranks `1..10`. -/
def getLeaderboardData : List LeaderboardEntry :=
  let latestYear : ℤ := 2021
  let statesWithScores :=
    INDIAN_STATES.map (fun state => (state, calculateSafetyScore state latestYear))
  (((sortByScore statesWithScores).take 10).enum).map
    (fun p =>
      { rank := p.1 + 1
      , state := p.2.1
      , score := p.2.2.score
      , riskLevel := p.2.2.riskLevel })

/-- A point of the crime-trend series. -/
structure TrendPoint where
  year : ℤ
  count : ℤ
  movingAvg : Option ℤ
deriving DecidableEq, Repr, Inhabited

/-- One raw point `{year, count}` of `getCrimeTrendData` from `mockData.ts`
(lines 97–111): `seed = state.length + crimeType.length`,
`baseCount = 500 + (seed % 2000)`, and for `YEARS[index] = 2001 + index`:
`trend = Math.sin(index * 0.3) * 200`, `noise = Math.sin(seed * year) * 100`,
`growth = index * 15`,
`count = Math.max(0, Math.round(baseCount + trend + noise + growth))`.
The parameter `sin` abstracts the floating-point `Math.sin`. -/
def trendPointRaw (sin : ℚ → ℚ) (state crimeType : String) (index : ℕ) :
    ℤ × ℤ :=
  let seed : ℕ := state.length + crimeType.length
  let baseCount : ℚ := 500 + ((seed % 2000 : ℕ) : ℚ)
  let year : ℤ := 2001 + (index : ℤ)
  let trend : ℚ := sin ((index : ℚ) * 0.3) * 200
  let noise : ℚ := sin ((seed : ℚ) * (year : ℚ)) * 100
  let growth : ℚ := (index : ℚ) * 15
  let count : ℤ := max 0 (jsRound (baseCount + trend + noise + growth))
  (year, count)

/-- The intermediate `data` array of `getCrimeTrendData`: one raw point per
entry of `YEARS` (21 entries, `index = 0..20`). -/
def rawTrendData (sin : ℚ → ℚ) (state crimeType : String) : List (ℤ × ℤ) :=
  (List.range 21).map (trendPointRaw sin state crimeType)

/-- `getCrimeTrendData` second pass (lines 113–123): map over `data` with
index; for `index >= 2` attach
`movingAvg = Math.round((data[index].count + data[index-1].count +
data[index-2].count) / 3)`.  Since `data[i] = trendPointRaw sin state
crimeType i` for every `i < 21`, indexing into `data` is embedded by
reapplying the point generator. -/
def getCrimeTrendData (sin : ℚ → ℚ) (state crimeType : String) :
    List TrendPoint :=
  (List.range 21).map (fun index =>
    let p := trendPointRaw sin state crimeType index
    if 2 ≤ index then
      let avg : ℤ := jsRound
        ((((trendPointRaw sin state crimeType index).2 +
           (trendPointRaw sin state crimeType (index - 1)).2 +
           (trendPointRaw sin state crimeType (index - 2)).2 : ℤ) : ℚ) / 3)
      { year := p.1, count := p.2, movingAvg := some avg }
    else
      { year := p.1, count := p.2, movingAvg := none })

/-- JavaScript `phone.replace(/\D/g, "")` from `SOSEmergency.tsx` (line 35):
keep exactly the decimal digits `0–9`. -/
def cleanPhone (phone : String) : String :=
  String.mk (phone.data.filter (fun c => 48 ≤ c.toNat && c.toNat ≤ 57))

/-- Uppercase hexadecimal digit for `n < 16`. -/
def hexDigit (n : ℕ) : Char :=
  if n < 10 then Char.ofNat (48 + n) else Char.ofNat (55 + n)

/-- UTF-8 byte sequence of a Unicode scalar value. -/
def utf8Bytes (n : ℕ) : List ℕ :=
  if n < 128 then [n]
  else if n < 2048 then [192 + n / 64, 128 + n % 64]
  else if n < 65536 then [224 + n / 4096, 128 + n / 64 % 64, 128 + n % 64]
  else [240 + n / 262144, 128 + n / 4096 % 64, 128 + n / 64 % 64, 128 + n % 64]

/-- The characters JavaScript `encodeURIComponent` leaves unescaped:
`A–Z`, `a–z`, `0–9`, `- _ . ! ~ * \x27 ( )` (by code point). -/
def isUriUnreserved (c : Char) : Bool :=
  let n := c.toNat
  (65 ≤ n && n ≤ 90) || (97 ≤ n && n ≤ 122) || (48 ≤ n && n ≤ 57) ||
    n == 45 || n == 95 || n == 46 || n == 33 || n == 126 || n == 42 ||
    n == 39 || n == 40 || n == 41

/-- Percent-encoding of one character: each UTF-8 byte as `%XX`
(uppercase hex). -/
def percentEncodeChar (c : Char) : String :=
  String.mk ((utf8Bytes c.toNat).foldr
    (fun b acc => Char.ofNat 37 :: hexDigit (b / 16) :: hexDigit (b % 16) :: acc)
    [])

/-- JavaScript `encodeURIComponent`. -/
def encodeURIComponent (s : String) : String :=
  String.join (s.data.map (fun c =>
    if isUriUnreserved c then String.singleton c else percentEncodeChar c))

/-- `generateMessage()` from `SOSEmergency.tsx` (lines 30–32).  The component
state fields `userName`, `area`, `mapsLink` are the parameters; JavaScript
string truthiness (`s || d`, `s ? a : b`) distinguishes exactly the empty
string. -/
def generateMessage (userName area mapsLink : String) : String :=
  "🚨 EMERGENCY ALERT 🚨\n\nThis is " ++
    (if userName = "" then "someone" else userName) ++
    " and I need immediate help!\n\n📍 Location: " ++
    (if area = "" then "Unknown" else area) ++ "\n" ++
    (if mapsLink = "" then "" else "🗺️ Maps: " ++ mapsLink) ++
    "\n\nPlease call me or send help immediately. This is an emergency."

/-- `getWhatsAppLink(phone)` from `SOSEmergency.tsx` (lines 34–37). -/
def getWhatsAppLink (userName area mapsLink phone : String) : String :=
  "https://wa.me/" ++ cleanPhone phone ++ "?text=" ++
    encodeURIComponent (generateMessage userName area mapsLink)

/-- Error taxonomy of the HTTP surface (spec §7). -/
inductive ApiError where
  | invalidInput
  | notFound
deriving DecidableEq, Repr

/-- Request body of `POST /predict/simulate` (spec §6): seven non-negative
integer counts plus a year. -/
structure SimulateRequest where
  year : ℕ
  rape : ℕ
  kidnapping : ℕ
  dowryDeaths : ℕ
  assaultOnWomen : ℕ
  assaultOnMinors : ℕ
  domesticViolence : ℕ
  trafficking : ℕ
deriving DecidableEq, Repr

/-- The spec risk bucketing applied to a (possibly fractional) backend score. -/
def riskOfRat (score : ℚ) : RiskLevel :=
  if score < 40 then .high
  else if score < 70 then .medium
  else .low

/-- Modelled from the spec: the backend implementation `backend/app.py` of
`POST /predict/simulate` is missing from the repository sources (only its
README, its TypeScript callers `api.ts`/`useApi.ts`, and the spec describe
it).  Per spec §4.1 path (b) and §6: the operation fails with InvalidInput
when all seven counts are zero; otherwise the score is a fixed weighted linear
combination of normalized counts subtracted from 100 and clamped to [0,100].
The weighting/normalization constants are opaque (spec §9), so the combined
weighted term is taken as an explicit parameter `w`. -/
def backendSimulate (w : SimulateRequest → ℚ) (req : SimulateRequest) :
    Except ApiError (ℚ × RiskLevel) :=
  if req.rape = 0 ∧ req.kidnapping = 0 ∧ req.dowryDeaths = 0 ∧
      req.assaultOnWomen = 0 ∧ req.assaultOnMinors = 0 ∧
      req.domesticViolence = 0 ∧ req.trafficking = 0 then
    .error .invalidInput
  else
    let score : ℚ := min 100 (max 0 (100 - w req))
    .ok (score, riskOfRat score)

/-! ## Helper lemmas -/

/-- The conditional `score >= 70 ? "Low" : score >= 40 ? "Medium" : "High"`
used verbatim by the source agrees with the spec-worded bucketing `riskOf`. -/
theorem branch_riskOf (s : ℤ) :
    (if 70 ≤ s then RiskLevel.low else if 40 ≤ s then RiskLevel.medium
      else RiskLevel.high) = riskOf s := by
  unfold riskOf
  split_ifs <;> first | rfl | omega

theorem jsRound_nonneg {q : ℚ} (h : 0 ≤ q) : 0 ≤ jsRound q := by
  unfold jsRound
  exact Int.le_floor.mpr (by push_cast; linarith)

/-- `Math.round` of an integer plus `k · 0.5` as pure integer arithmetic. -/
theorem jsRound_int_half (b k : ℤ) :
    jsRound ((b : ℚ) + (k : ℚ) * 0.5) = (2 * b + k + 1) / 2 := by
  unfold jsRound
  rw [show ((b : ℚ) + (k : ℚ) * 0.5) + 1 / 2
      = ((2 * b + k + 1 : ℤ) : ℚ) / ((2 : ℕ) : ℚ) by push_cast; norm_num; ring]
  exact Rat.floor_intCast_div_natCast _ _

/-- `Math.round` of an integer is that integer. -/
theorem jsRound_intCast (n : ℤ) : jsRound ((n : ℚ)) = n := by
  unfold jsRound
  rw [show ((n : ℚ) + 1 / 2) = ((2 * n + 1 : ℤ) : ℚ) / ((2 : ℕ) : ℚ) by
    push_cast; ring]
  rw [Rat.floor_intCast_div_natCast]
  omega

/-- `calculateSafetyScore` evaluated through integer arithmetic. -/
theorem calculateSafetyScore_eq (state : String) (year : ℤ) :
    calculateSafetyScore state year
      = { score := calcScoreInt state year
        , riskLevel := if 70 ≤ calcScoreInt state year then RiskLevel.low
            else if 40 ≤ calcScoreInt state year then RiskLevel.medium
            else RiskLevel.high } := by
  simp only [calculateSafetyScore, calcScoreInt]
  rw [show ((year : ℚ) - 2001) = (((year - 2001 : ℤ)) : ℚ) by push_cast; ring]
  rw [jsRound_int_half]

/-- Concrete value of the leaderboard (kernel-computed through
`calculateSafetyScore_eq`). -/
theorem leaderboard_eval :
    getLeaderboardData =
      [ { rank := 1, state := "Chhattisgarh", score := 52, riskLevel := .medium }
      , { rank := 2, state := "Assam", score := 55, riskLevel := .medium }
      , { rank := 3, state := "Bihar", score := 55, riskLevel := .medium }
      , { rank := 4, state := "Delhi", score := 55, riskLevel := .medium }
      , { rank := 5, state := "Arunachal Pradesh", score := 57, riskLevel := .medium }
      , { rank := 6, state := "Tamil Nadu", score := 60, riskLevel := .medium }
      , { rank := 7, state := "Goa", score := 63, riskLevel := .medium }
      , { rank := 8, state := "Nagaland", score := 68, riskLevel := .medium }
      , { rank := 9, state := "Uttar Pradesh", score := 73, riskLevel := .low }
      , { rank := 10, state := "Kerala", score := 76, riskLevel := .low } ] := by
  simp only [getLeaderboardData, calculateSafetyScore_eq]
  decide

/-- Indexing a mapped range: element `j < n` of `(List.range n).map f`. -/
theorem getD_range_map {α : Type} (f : ℕ → α) (n j : ℕ) (d : α)
    (h : j < n) : ((List.range n).map f).getD j d = f j := by
  rw [List.getD_eq_getElem ((List.range n).map f) d (by simpa using h)]
  simp

theorem jsRound_le_hundred {q : ℚ} (h : q ≤ 100) : jsRound q ≤ 100 := by
  unfold jsRound
  have h101 : (q + 1 / 2 : ℚ) < ((101 : ℤ) : ℚ) := by push_cast; linarith
  have := Int.floor_lt.mpr h101
  omega

theorem calculateSafetyScore_bounds (state : String) (year : ℤ) :
    0 ≤ (calculateSafetyScore state year).score ∧
      (calculateSafetyScore state year).score ≤ 100 := by
  simp only [calculateSafetyScore]
  omega

theorem calculateSafetyScore_risk (state : String) (year : ℤ) :
    (calculateSafetyScore state year).riskLevel
      = riskOf (calculateSafetyScore state year).score := by
  simp only [calculateSafetyScore]
  exact branch_riskOf _

/-! ## Claim theorems -/

/-- C2 counterexample: at the vector with every count 200 the simulate
operation returns score −100.  The returned score is below 0, so it is not the
weighted combination subtracted from 100 *clamped to [0,100]* that the claim
asserts (the code applies no clamping). -/
theorem simulate_no_clamp_cex :
    (simulateSafetyScore ⟨200, 200, 200, 200, 200⟩).score = -100 ∧
      (simulateSafetyScore ⟨200, 200, 200, 200, 200⟩).score < 0 := by
  have hsc : (simulateSafetyScore ⟨200, 200, 200, 200, 200⟩).score = -100 := by
    simp only [simulateSafetyScore]
    rw [show (100 - weightedSum ⟨200, 200, 200, 200, 200⟩ : ℚ)
        = ((-100 : ℤ) : ℚ) by unfold weightedSum; norm_num]
    exact jsRound_intCast _
  exact ⟨hsc, by rw [hsc]; norm_num⟩

/-- C2 (amended): for every vector of crime counts within the slider range
[0,100] the simulate operation returns exactly
`Math.round(100 - weightedSum)`, and that score lies in [0,100].  (The code
performs no clamping, so counts above 100 can drive the score below 0.) -/
theorem simulate_score_formula (v : CrimeValues)
    (h : 0 ≤ v.rape ∧ v.rape ≤ 100 ∧ 0 ≤ v.assaultOnWomen ∧
      v.assaultOnWomen ≤ 100 ∧ 0 ≤ v.kidnappingAbduction ∧
      v.kidnappingAbduction ≤ 100 ∧ 0 ≤ v.domesticViolence ∧
      v.domesticViolence ≤ 100 ∧ 0 ≤ v.womenTrafficking ∧
      v.womenTrafficking ≤ 100) :
    (simulateSafetyScore v).score = jsRound (100 - weightedSum v) ∧
      0 ≤ (simulateSafetyScore v).score ∧
      (simulateSafetyScore v).score ≤ 100 := by
  obtain ⟨h1, h2, h3, h4, h5, h6, h7, h8, h9, h10⟩ := h
  have hws0 : 0 ≤ weightedSum v := by unfold weightedSum; nlinarith
  have hws100 : weightedSum v ≤ 100 := by unfold weightedSum; nlinarith
  refine ⟨rfl, ?_, ?_⟩
  · exact jsRound_nonneg (by linarith)
  · exact jsRound_le_hundred (by linarith)

/-- Witness for `simulate_score_formula` at the default slider vector
(every count 50). -/
theorem simulate_score_formula_witness :
    (simulateSafetyScore ⟨50, 50, 50, 50, 50⟩).score
        = jsRound (100 - weightedSum ⟨50, 50, 50, 50, 50⟩) ∧
      0 ≤ (simulateSafetyScore ⟨50, 50, 50, 50, 50⟩).score ∧
      (simulateSafetyScore ⟨50, 50, 50, 50, 50⟩).score ≤ 100 :=
  simulate_score_formula ⟨50, 50, 50, 50, 50⟩ (by norm_num)

/-- C3: every risk level produced by the state/year score, the simulate
operation, and the recommendations lookup is the deterministic total
bucketing `riskOf` of the accompanying score, and `riskOf` is exactly the
documented bucketing: High below 40, Medium from 40 up to but excluding 70,
Low from 70, with both boundaries closed on the lower side. -/
theorem risk_level_bucketing (state : String) (year : ℤ) (v : CrimeValues)
    (s t : ℤ) :
    (calculateSafetyScore state year).riskLevel
        = riskOf (calculateSafetyScore state year).score ∧
      (simulateSafetyScore v).riskLevel
        = riskOf (simulateSafetyScore v).score ∧
      (getSafetyRecommendations s).riskLevel = riskOf s ∧
      riskOf 40 = RiskLevel.medium ∧
      riskOf 70 = RiskLevel.low ∧
      (riskOf t = RiskLevel.high ↔ t < 40) ∧
      (riskOf t = RiskLevel.medium ↔ 40 ≤ t ∧ t < 70) ∧
      (riskOf t = RiskLevel.low ↔ 70 ≤ t) := by
  refine ⟨calculateSafetyScore_risk state year, ?_, ?_, by decide, by decide,
    ?_, ?_, ?_⟩
  · simp only [simulateSafetyScore]
    exact branch_riskOf _
  · simp only [getSafetyRecommendations]
    rw [← branch_riskOf s]
    split_ifs <;> rfl
  · unfold riskOf
    split_ifs <;> simp_all
  · unfold riskOf
    split_ifs <;> simp_all
  · unfold riskOf
    split_ifs <;> simp_all
    all_goals omega

/-- C4 counterexample: the leaderboard does not contain one entry per known
state — it has 10 entries while 29 states are enumerated, and the known state
"Maharashtra" has no entry. -/
theorem leaderboard_missing_state_cex :
    getLeaderboardData.length = 10 ∧ INDIAN_STATES.length = 29 ∧
      "Maharashtra" ∈ INDIAN_STATES ∧
      "Maharashtra" ∉ getLeaderboardData.map (fun e => e.state) := by
  rw [leaderboard_eval]
  decide

/-- C4 (amended): the leaderboard takes no year filter (the year is fixed to
2021); it contains the 10 lowest-scoring of the known states — each at most
once, each carrying its 2021 score and risk level — sorted ascending by score
with ranks 1..10.  The final conjunct settles the selection property: every
known state absent from the leaderboard scores at least as high as every
listed entry. -/
theorem leaderboard_sorted_top10 :
    getLeaderboardData.length = 10 ∧
      getLeaderboardData.map (fun e => e.rank)
        = (List.range 10).map (fun i => i + 1) ∧
      List.Chain' (fun a b => a.score ≤ b.score) getLeaderboardData ∧
      getLeaderboardData.all (fun e => decide (e.state ∈ INDIAN_STATES)) ∧
      (getLeaderboardData.map (fun e => e.state)).Nodup ∧
      getLeaderboardData.all (fun e =>
        decide (e.score = (calculateSafetyScore e.state 2021).score ∧
          e.riskLevel = (calculateSafetyScore e.state 2021).riskLevel)) ∧
      INDIAN_STATES.all (fun s =>
        decide (s ∈ getLeaderboardData.map (fun e => e.state)) ||
          getLeaderboardData.all (fun e =>
            decide (e.score ≤ (calculateSafetyScore s 2021).score))) := by
  rw [leaderboard_eval]
  refine ⟨by decide, by decide, ?_, by decide, by decide, ?_, ?_⟩
  · simp only [List.chain'_cons, List.chain'_singleton, and_true]
    omega
  · simp only [List.all_cons, List.all_nil, Bool.and_eq_true, decide_eq_true_eq]
    refine ⟨?_, ?_, ?_, ?_, ?_, ?_, ?_, ?_, ?_, ?_, trivial⟩ <;>
      rw [calculateSafetyScore_eq] <;> exact ⟨by decide, by decide⟩
  · simp only [calculateSafetyScore_eq]
    decide

/-- C6: for every (state, year) pair present in the reference data the
state/year scoring operation returns a score in [0,100] and a risk level
equal to the documented bucketing of that score. -/
theorem predict_safety_valid (state : String) (year : ℤ)
    (_hs : state ∈ INDIAN_STATES) (_hy : year ∈ YEARS) :
    0 ≤ (calculateSafetyScore state year).score ∧
      (calculateSafetyScore state year).score ≤ 100 ∧
      (calculateSafetyScore state year).riskLevel
        = riskOf (calculateSafetyScore state year).score :=
  ⟨(calculateSafetyScore_bounds state year).1,
    (calculateSafetyScore_bounds state year).2,
    calculateSafetyScore_risk state year⟩

/-- Witness for `predict_safety_valid` at ("Delhi", 2021). -/
theorem predict_safety_valid_witness :
    0 ≤ (calculateSafetyScore "Delhi" 2021).score ∧
      (calculateSafetyScore "Delhi" 2021).score ≤ 100 ∧
      (calculateSafetyScore "Delhi" 2021).riskLevel
        = riskOf (calculateSafetyScore "Delhi" 2021).score :=
  predict_safety_valid "Delhi" 2021 (by decide) (by decide)

/-- The `count` field of the `j`-th trend point is the raw generated count,
independent of the moving-average branch. -/
theorem trend_count (sin : ℚ → ℚ) (state crimeType : String) (j : ℕ)
    (h : j < 21) :
    ((getCrimeTrendData sin state crimeType).getD j default).count
      = (trendPointRaw sin state crimeType j).2 := by
  simp only [getCrimeTrendData]
  rw [getD_range_map _ _ _ _ h]
  split <;> rfl

/-- The `movingAvg` field of the `j`-th trend point, by cases on `2 ≤ j`. -/
theorem trend_movingAvg (sin : ℚ → ℚ) (state crimeType : String) (j : ℕ)
    (h : j < 21) :
    ((getCrimeTrendData sin state crimeType).getD j default).movingAvg
      = if 2 ≤ j then
          some (jsRound
            ((((trendPointRaw sin state crimeType j).2 +
               (trendPointRaw sin state crimeType (j - 1)).2 +
               (trendPointRaw sin state crimeType (j - 2)).2 : ℤ) : ℚ) / 3))
        else none := by
  simp only [getCrimeTrendData]
  rw [getD_range_map _ _ _ _ h]
  split <;> rfl

/-- C7: in every trend series the moving average is present at a point iff
the point has at least 2 preceding points (the first two points carry none),
and where present it is the rounded mean of that point's count and the two
immediately preceding counts.  The `sin` parameter abstracts `Math.sin`, so
this holds for the actual floating-point generator as an instance. -/
theorem trend_moving_average (sin : ℚ → ℚ) (state crimeType : String)
    (i : ℕ) (h : i < (getCrimeTrendData sin state crimeType).length) :
    (((getCrimeTrendData sin state crimeType).getD i default).movingAvg ≠ none
        ↔ 2 ≤ i) ∧
      (2 ≤ i →
        ((getCrimeTrendData sin state crimeType).getD i default).movingAvg
          = some (jsRound
              (((((getCrimeTrendData sin state crimeType).getD i default).count +
                 ((getCrimeTrendData sin state crimeType).getD (i - 1) default).count +
                 ((getCrimeTrendData sin state crimeType).getD (i - 2) default).count
                  : ℤ) : ℚ) / 3))) := by
  have hlen : (getCrimeTrendData sin state crimeType).length = 21 := by
    simp [getCrimeTrendData]
  rw [hlen] at h
  constructor
  · rw [trend_movingAvg sin state crimeType i h]
    by_cases h2 : 2 ≤ i
    · simp [h2]
    · simp [h2]
  · intro h2
    rw [trend_movingAvg sin state crimeType i h, if_pos h2,
      trend_count sin state crimeType i h,
      trend_count sin state crimeType (i - 1) (by omega),
      trend_count sin state crimeType (i - 2) (by omega)]

/-- Witness for `trend_moving_average` at the third point (`i = 2`) of the
("Delhi", "Rape") series with the zero sine. -/
theorem trend_moving_average_witness :
    (((getCrimeTrendData (fun _ => 0) "Delhi" "Rape").getD 2 default).movingAvg
          ≠ none ↔ 2 ≤ 2) ∧
      (2 ≤ 2 →
        ((getCrimeTrendData (fun _ => 0) "Delhi" "Rape").getD 2 default).movingAvg
          = some (jsRound
              (((((getCrimeTrendData (fun _ => 0) "Delhi" "Rape").getD 2 default).count +
                 ((getCrimeTrendData (fun _ => 0) "Delhi" "Rape").getD 1 default).count +
                 ((getCrimeTrendData (fun _ => 0) "Delhi" "Rape").getD 0 default).count
                  : ℤ) : ℚ) / 3))) :=
  trend_moving_average (fun _ => 0) "Delhi" "Rape" 2 (by simp [getCrimeTrendData])

/-- C8 counterexample: the mock enumeration `INDIAN_STATES` has 29 names (not
30), and a scoring query for "Atlantis" — a state outside both enumerations —
returns a result instead of failing. -/
theorem states_enum_cex :
    INDIAN_STATES.length = 29 ∧ ¬ INDIAN_STATES.length = 30 ∧
      "Atlantis" ∉ INDIAN_STATES ∧ "Atlantis" ∉ AVAILABLE_STATES ∧
      calculateSafetyScore "Atlantis" 2021
        = { score := 68, riskLevel := RiskLevel.medium } := by
  refine ⟨by decide, by decide, by decide, by decide, ?_⟩
  rw [calculateSafetyScore_eq]
  decide

/-- C8 (amended): the API-service enumeration `AVAILABLE_STATES` has exactly
30 names while the mock enumeration `INDIAN_STATES` has 29; the in-repo
scoring function is total over arbitrary state strings — membership is
enforced only by the TypeScript types and the absent backend — and still
returns a clamped score in [0,100]. -/
theorem states_enum_sizes (state : String) (year : ℤ) :
    AVAILABLE_STATES.length = 30 ∧ INDIAN_STATES.length = 29 ∧
      0 ≤ (calculateSafetyScore state year).score ∧
      (calculateSafetyScore state year).score ≤ 100 :=
  ⟨by decide, by decide, (calculateSafetyScore_bounds state year).1,
    (calculateSafetyScore_bounds state year).2⟩

/-- C9: the scoring operations are deterministic — two invocations with
identical inputs return identical outputs (score, risk level and
interpretation text alike); the embedded functions consume nothing but their
arguments. -/
theorem scoring_deterministic (s₁ s₂ : String) (y₁ y₂ : ℤ)
    (v₁ v₂ : CrimeValues) (hs : s₁ = s₂) (hy : y₁ = y₂) (hv : v₁ = v₂) :
    calculateSafetyScore s₁ y₁ = calculateSafetyScore s₂ y₂ ∧
      simulateSafetyScore v₁ = simulateSafetyScore v₂ := by
  subst hs hy hv
  exact ⟨rfl, rfl⟩

/-- Witness for `scoring_deterministic` at ("Delhi", 2021) and the default
slider vector. -/
theorem scoring_deterministic_witness :
    calculateSafetyScore "Delhi" 2021 = calculateSafetyScore "Delhi" 2021 ∧
      simulateSafetyScore ⟨50, 50, 50, 50, 50⟩
        = simulateSafetyScore ⟨50, 50, 50, 50, 50⟩ :=
  scoring_deterministic "Delhi" "Delhi" 2021 2021 ⟨50, 50, 50, 50, 50⟩
    ⟨50, 50, 50, 50, 50⟩ rfl rfl rfl

/-- C10: the SOS WhatsApp link is `https://wa.me/` ++ the phone string with
every non-digit removed ++ `?text=` ++ the URI-encoded alert message; every
character kept from the phone string is a decimal digit; the message
substitutes "someone" for an empty name and "Unknown" for an empty area, and
message generation is total over all field values. -/
theorem sos_whatsapp_link (userName area mapsLink phone : String) :
    getWhatsAppLink userName area mapsLink phone
        = "https://wa.me/" ++ cleanPhone phone ++ "?text="
            ++ encodeURIComponent (generateMessage userName area mapsLink) ∧
      (cleanPhone phone).data.all (fun c => 48 ≤ c.toNat && c.toNat ≤ 57)
        = true ∧
      generateMessage "" area mapsLink = generateMessage "someone" area mapsLink ∧
      generateMessage userName "" mapsLink
        = generateMessage userName "Unknown" mapsLink := by
  refine ⟨rfl, ?_, ?_, ?_⟩
  · unfold cleanPhone
    simp only [List.all_eq_true, decide_eq_true_eq]
    intro c hc
    simpa using (List.mem_filter.mp hc).2
  · simp [generateMessage]
  · simp [generateMessage]

/-- C1 (spec-modelled): the simulate endpoint rejects the all-zero crime
vector with InvalidInput — it does not return a score — for every choice of
the (opaque) weighting. -/
theorem simulate_all_zero_invalid (w : SimulateRequest → ℚ)
    (req : SimulateRequest)
    (h : req.rape = 0 ∧ req.kidnapping = 0 ∧ req.dowryDeaths = 0 ∧
      req.assaultOnWomen = 0 ∧ req.assaultOnMinors = 0 ∧
      req.domesticViolence = 0 ∧ req.trafficking = 0) :
    backendSimulate w req = Except.error ApiError.invalidInput := by
  unfold backendSimulate
  rw [if_pos h]

/-- Witness for `simulate_all_zero_invalid` at the zero request (year 2021)
and the zero weighting. -/
theorem simulate_all_zero_invalid_witness :
    backendSimulate (fun _ => 0) ⟨2021, 0, 0, 0, 0, 0, 0, 0⟩
      = Except.error ApiError.invalidInput :=
  simulate_all_zero_invalid (fun _ => 0) ⟨2021, 0, 0, 0, 0, 0, 0, 0⟩
    ⟨rfl, rfl, rfl, rfl, rfl, rfl, rfl⟩

end WomenSafety
